import Mathlib

/-!
Verification of the AscentCast podcast-analysis pipeline (src/main.py).

The program is a single linear pipeline: read file → upload to an OCR
service → obtain a signed URL → run OCR → build a prompt → call a text
generation service → return (or print) the result.  All external effects
are modelled by a `World` record of oracle functions; a Python exception
with message `m` is modelled as `Except.error m` (Python's `str(e)` is the
message itself).  The sampling temperature, a Python float, is modelled as
a rational number (only its identity matters here, never arithmetic).
-/

namespace AscentCast

/-- A filesystem path: its full rendering and its final component
(Python `Path.name`). -/
structure FilePath0 where
  full : String
  name : String
deriving DecidableEq

/-- `Config` dataclass from src/main.py (lines 12-19). -/
structure Config where
  file_path : FilePath0
  user_context : String
  model : String := "claude-3-7-sonnet-20250219"
  max_tokens : Nat := 4000
  temperature : ℚ := 1
deriving DecidableEq

/-- Result object of `mistral_client.files.upload`. -/
structure UploadedFile where
  id : String
deriving DecidableEq

/-- Result object of `mistral_client.files.get_signed_url`. -/
structure SignedUrl where
  url : String
deriving DecidableEq

/-- One OCR page; `markdown` is its text representation. -/
structure OCRPage where
  markdown : String
deriving DecidableEq

/-- Result object of `mistral_client.ocr.process`. -/
structure OCRResponse where
  pages : List OCRPage
deriving DecidableEq

/-- One text fragment of a generation-service response. -/
structure ContentChunk where
  text : String
deriving DecidableEq

/-- Result object of `anthropic_client.messages.create`. -/
structure AnthropicMessage where
  content : List ContentChunk
deriving DecidableEq

/-- The request sent to the generation service (src/main.py lines 92-103). -/
structure AnthropicRequest where
  model : String
  max_tokens : Nat
  temperature : ℚ
  system : String
  user_text : String
deriving DecidableEq

/-- The external world: the filesystem and the two API providers.  Each
oracle either returns a value or raises (an `Except.error` with the
exception's message string). -/
structure World where
  openFile : String → Except String String
  filesUpload : String → String → Except String UploadedFile
  getSignedUrl : String → Except String SignedUrl
  ocrProcess : String → String → Except String OCRResponse
  messagesCreate : AnthropicRequest → Except String AnthropicMessage

/-- Body of the `try` block of `_extract_text_from_file`
(src/main.py lines 39-57): open the file, upload it under its base name,
fetch a signed URL for the uploaded id, OCR the URL with model
"mistral-ocr-latest", and newline-join the pages' markdown. -/
def extract_text_body (w : World) (config : Config) : Except String String :=
  match w.openFile config.file_path.full with
  | .error e => .error e
  | .ok content =>
    match w.filesUpload config.file_path.name content with
    | .error e => .error e
    | .ok uploaded_file =>
      match w.getSignedUrl uploaded_file.id with
      | .error e => .error e
      | .ok signed_url =>
        match w.ocrProcess "mistral-ocr-latest" signed_url.url with
        | .error e => .error e
        | .ok ocr_response =>
          .ok (String.intercalate "\n" (ocr_response.pages.map OCRPage.markdown))

/-- `PodcastAnalyzer._extract_text_from_file` (src/main.py lines 36-59):
the try body, with any exception re-raised as
`Exception("OCR processing failed: " + str(e))`. -/
def extract_text_from_file (w : World) (config : Config) : Except String String :=
  match extract_text_body w config with
  | .ok s => .ok s
  | .error e => .error ("OCR processing failed: " ++ e)

/-- The fixed system prompt (src/main.py lines 63-74). -/
def system_prompt : String :=
  "\n        You are an expert in analyzing technology podcasts, extracting key career insights, and providing actionable recommendations tailored to professionals in fast-growing startups.\n\n        Your primary goal is to help users translate insights from industry leaders into concrete actions that accelerate their professional growth. You will analyze podcast transcripts to identify:\n\n        1. Key career takeaways for software engineers, product builders, and startup operators\n        2. Skills and strategies that can improve the user\x27s impact in their role\n        3. Lessons from top founders and investors that apply to the user\x27s long-term career trajectory\n        4. Opportunities for networking, leadership development, and industry positioning\n\n        Ensure your responses are clear, structured, and tailored to the user\x27s career path.\n        "

/-- Text of the user prompt before the `{self.config.user_context}`
interpolation point (src/main.py line 76). -/
def user_prompt_part1 : String := "\n        "

/-- Text of the user prompt between the user-context and transcript
interpolation points (src/main.py lines 77-88). -/
def user_prompt_part2 : String :=
  "\n\n        Please analyze the following podcast transcript and provide key takeaways that are directly relevant to my career growth, technical development, and long-term trajectory. Structure your response as follows:\n\n        1. Key Career Lessons: What skills, mindsets, and strategies from the podcast are most relevant to my role and future growth?\n        2. Actionable Career Moves: What specific actions should I take in the next 6-12 months to develop my skills, expand my network, or increase my impact?\n        3. Lessons from Top Operators & Investors: What habits or frameworks from experienced founders, investors, or executives can I apply to my career?\n        4. Opportunities to Apply These Insights: How can I integrate these lessons into my current role?\n\n        Here\x27s the transcript:\n\n        "

/-- Text of the user prompt after the `{transcript}` interpolation point
(src/main.py line 89). -/
def user_prompt_part3 : String := "\n        "

/-- The `user_prompt` f-string of `_analyze_transcript`
(src/main.py lines 76-89): user context and transcript interpolated into
the fixed template. -/
def user_prompt (user_context transcript : String) : String :=
  user_prompt_part1 ++ user_context ++ user_prompt_part2 ++ transcript ++ user_prompt_part3

/-- The request built by `_analyze_transcript` (src/main.py lines 92-103):
model, max_tokens and temperature from the config, the fixed system
prompt, and the interpolated user prompt. -/
def analyze_request (config : Config) (transcript : String) : AnthropicRequest :=
  { model := config.model
    max_tokens := config.max_tokens
    temperature := config.temperature
    system := system_prompt
    user_text := user_prompt config.user_context transcript }

/-- Body of the `try` block of `_analyze_transcript`
(src/main.py lines 92-105): call the generation service and join the
returned text fragments with no separator. -/
def analyze_body (w : World) (config : Config) (transcript : String) :
    Except String String :=
  match w.messagesCreate (analyze_request config transcript) with
  | .error e => .error e
  | .ok message => .ok (String.join (message.content.map ContentChunk.text))

/-- `PodcastAnalyzer._analyze_transcript` (src/main.py lines 61-107):
the try body, with any exception re-raised as
`Exception("Analysis failed: " + str(e))`. -/
def analyze_transcript (w : World) (config : Config) (transcript : String) :
    Except String String :=
  match analyze_body w config transcript with
  | .ok s => .ok s
  | .error e => .error ("Analysis failed: " ++ e)

/-- `PodcastAnalyzer.process_transcript` (src/main.py lines 27-34):
extract, then analyze; any exception from either stage is converted to
the string `"Error processing transcript: " + str(e)`. -/
def process_transcript (w : World) (config : Config) : String :=
  match extract_text_from_file w config with
  | .error e => "Error processing transcript: " ++ e
  | .ok transcript =>
    match analyze_transcript w config transcript with
    | .error e => "Error processing transcript: " ++ e
    | .ok insights => insights

/-- The `PodcastAnalyzer` object: its only attribute relevant to the
pipeline logic is the config stored by `__init__` (src/main.py line 23). -/
structure PodcastAnalyzer where
  config : Config
deriving DecidableEq

/-- Stateful rendering of `_extract_text_from_file`: the method reads
`self.config` and assigns no attribute, so the state it returns is the
state it received. -/
def extract_text_from_fileS (w : World) (a : PodcastAnalyzer) :
    Except String String × PodcastAnalyzer :=
  (extract_text_from_file w a.config, a)

/-- Stateful rendering of `_analyze_transcript`: reads `self.config`,
assigns no attribute. -/
def analyze_transcriptS (w : World) (a : PodcastAnalyzer) (transcript : String) :
    Except String String × PodcastAnalyzer :=
  (analyze_transcript w a.config transcript, a)

/-- Stateful rendering of `process_transcript`, threading the analyzer
state through both stages exactly as the method calls them. -/
def process_transcriptS (w : World) (a : PodcastAnalyzer) :
    String × PodcastAnalyzer :=
  match extract_text_from_fileS w a with
  | (.error e, a1) => ("Error processing transcript: " ++ e, a1)
  | (.ok transcript, a1) =>
    match analyze_transcriptS w a1 transcript with
    | (.error e, a2) => ("Error processing transcript: " ++ e, a2)
    | (.ok insights, a2) => (insights, a2)

/-- Default of the `--user-context` flag (src/main.py line 113). -/
def default_user_context : String :=
  "I am a professional looking to grow my career in technology and startups."

/-- The config built by `main` (src/main.py lines 117-120): the parsed
file path, and the supplied `--user-context` value, or the argparse
default when the flag is omitted (`none`). -/
def main_config (fp : FilePath0) (user_context_arg : Option String) : Config :=
  { file_path := fp
    user_context := user_context_arg.getD default_user_context }

/-- `t` occurs as a contiguous substring of `s`. -/
def strContains (s t : String) : Prop := t.data <:+: s.data

instance (s t : String) : Decidable (strContains s t) :=
  inferInstanceAs (Decidable (t.data <:+: s.data))

/-- A world in which every external call succeeds: the OCR service
returns pages "A", "B", "C" and the generation service returns fragments
"Hello " and "world". -/
def okWorld : World :=
  { openFile := fun _ => .ok "transcriptbytes"
    filesUpload := fun _ _ => .ok { id := "file-1" }
    getSignedUrl := fun _ => .ok { url := "https://signed.example" }
    ocrProcess := fun _ _ =>
      .ok { pages := [{ markdown := "A" }, { markdown := "B" }, { markdown := "C" }] }
    messagesCreate := fun _ => .ok { content := [{ text := "Hello " }, { text := "world" }] } }

/-- A sample configuration, as `main` would build it with the flag omitted. -/
def cfg0 : Config :=
  { file_path := { full := "t.pdf", name := "t.pdf" }
    user_context := default_user_context }

/-- Like `okWorld` but opening the file raises. -/
def openFailWorld : World := { okWorld with openFile := fun _ => .error "no such file" }

/-- Like `okWorld` but the upload call raises. -/
def uploadFailWorld : World := { okWorld with filesUpload := fun _ _ => .error "auth failure" }

/-- Like `okWorld` but the OCR call raises. -/
def ocrFailWorld : World := { okWorld with ocrProcess := fun _ _ => .error "quota exceeded" }

/-- Like `okWorld` but the generation call raises. -/
def genFailWorld : World := { okWorld with messagesCreate := fun _ => .error "overloaded" }

/-- Appending on the right preserves substring containment. -/
theorem strContains_append_right {s t : String} (m : String) (h : strContains s t) :
    strContains (s ++ m) t := by
  unfold strContains at *
  rw [String.data_append]
  exact h.trans (List.prefix_append s.data m.data).isInfix

/-- Claim C1: for every configuration, `process_transcript` is exactly the
sequential composition of the generator applied to the extractor's output:
when both stages succeed, its result equals the analysis of the extracted
text, unchanged between the two stages. -/
theorem process_transcript_is_composition (w : World) (config : Config) (t r : String)
    (hx : extract_text_from_file w config = .ok t)
    (ha : analyze_transcript w config t = .ok r) :
    process_transcript w config = r := by
  simp [process_transcript, hx, ha]

/-- Witness for C1 on a fully succeeding world. -/
theorem process_transcript_is_composition_witness :
    extract_text_from_file okWorld cfg0 = .ok "A\nB\nC" ∧
    analyze_transcript okWorld cfg0 "A\nB\nC" = .ok "Hello world" ∧
    process_transcript okWorld cfg0 = "Hello world" :=
  ⟨rfl, rfl, process_transcript_is_composition okWorld cfg0 "A\nB\nC" "Hello world" rfl rfl⟩

/-- Claim C2: `process_transcript` never raises: for every world and
configuration it returns either the generator's final string (both stages
having succeeded) or an error string of the form
"Error processing transcript: m". -/
theorem process_transcript_never_raises (w : World) (config : Config) :
    (∃ t, extract_text_from_file w config = .ok t ∧
      analyze_transcript w config t = .ok (process_transcript w config)) ∨
    (∃ m, process_transcript w config = "Error processing transcript: " ++ m) := by
  cases hx : extract_text_from_file w config with
  | error e => exact Or.inr ⟨e, by simp [process_transcript, hx]⟩
  | ok t =>
    cases ha : analyze_transcript w config t with
    | error e => exact Or.inr ⟨e, by simp [process_transcript, hx, ha]⟩
    | ok r =>
      refine Or.inl ⟨t, rfl, ?_⟩
      simp [process_transcript, hx, ha]

/-- Claim C5: whenever the upload, signed-URL and OCR calls succeed, the
extractor returns the pages' markdown joined with a single newline, in
the order the pages are returned. -/
theorem extract_joins_pages_with_newline (w : World) (config : Config)
    (content : String) (u : UploadedFile) (su : SignedUrl) (resp : OCRResponse)
    (h1 : w.openFile config.file_path.full = .ok content)
    (h2 : w.filesUpload config.file_path.name content = .ok u)
    (h3 : w.getSignedUrl u.id = .ok su)
    (h4 : w.ocrProcess "mistral-ocr-latest" su.url = .ok resp) :
    extract_text_from_file w config =
      .ok (String.intercalate "\n" (resp.pages.map OCRPage.markdown)) := by
  simp [extract_text_from_file, extract_text_body, h1, h2, h3, h4]

/-- Witness for C5: pages ["A","B","C"] yield exactly "A\nB\nC". -/
theorem extract_joins_pages_with_newline_witness :
    String.intercalate "\n" ["A", "B", "C"] = "A\nB\nC" ∧
    extract_text_from_file okWorld cfg0 = .ok "A\nB\nC" := by
  refine ⟨by decide, ?_⟩
  have h := extract_joins_pages_with_newline okWorld cfg0 "transcriptbytes"
    { id := "file-1" } { url := "https://signed.example" }
    { pages := [{ markdown := "A" }, { markdown := "B" }, { markdown := "C" }] }
    rfl rfl rfl rfl
  exact h.trans (congrArg Except.ok (by decide))

/-- Claim C6: whenever the generation call succeeds, the generator returns
the response fragments concatenated in order with no separator. -/
theorem analyze_joins_fragments (w : World) (config : Config) (transcript : String)
    (msg : AnthropicMessage)
    (h : w.messagesCreate (analyze_request config transcript) = .ok msg) :
    analyze_transcript w config transcript =
      .ok (String.join (msg.content.map ContentChunk.text)) := by
  simp [analyze_transcript, analyze_body, h]

/-- Witness for C6: fragments ["Hello ", "world"] yield exactly "Hello world". -/
theorem analyze_joins_fragments_witness :
    String.join ["Hello ", "world"] = "Hello world" ∧
    analyze_transcript okWorld cfg0 "A\nB\nC" = .ok "Hello world" := by
  refine ⟨by decide, ?_⟩
  have h := analyze_joins_fragments okWorld cfg0 "A\nB\nC"
    { content := [{ text := "Hello " }, { text := "world" }] } rfl
  exact h.trans (congrArg Except.ok (by decide))

/-- Claim C3: whenever the extraction stage fails, the pipeline result
contains both "OCR processing failed" and "Error processing transcript",
and the generation service is never invoked: the result is unchanged
under any replacement of the generation oracle. -/
theorem extract_failure_short_circuits (w : World) (config : Config) (m : String)
    (h : extract_text_body w config = .error m) :
    strContains (process_transcript w config) "OCR processing failed" ∧
    strContains (process_transcript w config) "Error processing transcript" ∧
    ∀ g, process_transcript { w with messagesCreate := g } config =
      process_transcript w config := by
  have hp : process_transcript w config =
      "Error processing transcript: " ++ ("OCR processing failed: " ++ m) := by
    simp [process_transcript, extract_text_from_file, h]
  refine ⟨?_, ?_, ?_⟩
  · rw [hp, ← String.append_assoc]
    exact strContains_append_right m (by decide)
  · rw [hp, ← String.append_assoc]
    exact strContains_append_right m (by decide)
  · intro g
    have h2 : extract_text_body { w with messagesCreate := g } config = .error m := h
    have hp2 : process_transcript { w with messagesCreate := g } config =
        "Error processing transcript: " ++ ("OCR processing failed: " ++ m) := by
      simp [process_transcript, extract_text_from_file, h2]
    rw [hp2, hp]

/-- Witness for C3 on a world whose OCR call raises "quota exceeded". -/
theorem extract_failure_short_circuits_witness :
    extract_text_body ocrFailWorld cfg0 = .error "quota exceeded" ∧
    strContains (process_transcript ocrFailWorld cfg0) "OCR processing failed" :=
  ⟨rfl, (extract_failure_short_circuits ocrFailWorld cfg0 "quota exceeded" rfl).1⟩

/-- Claim C4: whenever extraction succeeds and the generation call fails,
the pipeline result is the wrapped "Analysis failed" message, so it
contains both "Analysis failed" and "Error processing transcript". -/
theorem analyze_failure_wrapped (w : World) (config : Config) (t m : String)
    (hx : extract_text_from_file w config = .ok t)
    (ha : analyze_body w config t = .error m) :
    process_transcript w config =
      "Error processing transcript: " ++ ("Analysis failed: " ++ m) ∧
    strContains (process_transcript w config) "Analysis failed" ∧
    strContains (process_transcript w config) "Error processing transcript" := by
  have hp : process_transcript w config =
      "Error processing transcript: " ++ ("Analysis failed: " ++ m) := by
    simp [process_transcript, analyze_transcript, hx, ha]
  refine ⟨hp, ?_, ?_⟩
  · rw [hp, ← String.append_assoc]
    exact strContains_append_right m (by decide)
  · rw [hp, ← String.append_assoc]
    exact strContains_append_right m (by decide)

/-- Witness for C4 on a world whose generation call raises "overloaded". -/
theorem analyze_failure_wrapped_witness :
    extract_text_from_file genFailWorld cfg0 = .ok "A\nB\nC" ∧
    analyze_body genFailWorld cfg0 "A\nB\nC" = .error "overloaded" ∧
    process_transcript genFailWorld cfg0 =
      "Error processing transcript: Analysis failed: overloaded" := by
  refine ⟨rfl, rfl, ?_⟩
  have h := (analyze_failure_wrapped genFailWorld cfg0 "A\nB\nC" "overloaded" rfl rfl).1
  exact h.trans (by decide)

/-- Claim C7: every exception raised inside the extraction try block is
re-raised as the single generic failure "OCR processing failed: m" where
m is the original message, and no other error shape can escape. -/
theorem extract_wraps_any_failure (w : World) (config : Config) (m : String)
    (h : extract_text_body w config = .error m) :
    extract_text_from_file w config = .error ("OCR processing failed: " ++ m) ∧
    ∀ e, extract_text_from_file w config = .error e →
      e = "OCR processing failed: " ++ m := by
  have h1 : extract_text_from_file w config =
      .error ("OCR processing failed: " ++ m) := by
    simp [extract_text_from_file, h]
  refine ⟨h1, fun e he => ?_⟩
  rw [h1] at he
  exact (Except.error.inj he).symm

/-- Witness for C7 on a world whose upload call raises "auth failure". -/
theorem extract_wraps_any_failure_witness :
    extract_text_body uploadFailWorld cfg0 = .error "auth failure" ∧
    extract_text_from_file uploadFailWorld cfg0 =
      .error "OCR processing failed: auth failure" := by
  refine ⟨rfl, ?_⟩
  have h := (extract_wraps_any_failure uploadFailWorld cfg0 "auth failure" rfl).1
  exact h.trans (congrArg Except.error (by decide))

/-- Claim C8: when the flag is omitted, the default user context is
interpolated verbatim into the generated prompt; a supplied value fully
replaces it, the rest of the template unchanged. -/
theorem user_context_default_or_replaced (fp : FilePath0) :
    (main_config fp none).user_context = default_user_context ∧
    (∀ t, user_prompt (main_config fp none).user_context t =
      user_prompt_part1 ++ default_user_context ++ user_prompt_part2 ++ t ++
        user_prompt_part3) ∧
    (∀ s t, (main_config fp (some s)).user_context = s ∧
      user_prompt (main_config fp (some s)).user_context t =
        user_prompt_part1 ++ s ++ user_prompt_part2 ++ t ++ user_prompt_part3) :=
  ⟨rfl, fun _ => rfl, fun _ _ => ⟨rfl, rfl⟩⟩

/-- Claim C9: a complete run of the pipeline leaves the analyzer state,
and in particular every field of its configuration, exactly as it was. -/
theorem config_never_mutated (w : World) (a : PodcastAnalyzer) :
    (process_transcriptS w a).2 = a ∧
    (process_transcriptS w a).2.config.file_path = a.config.file_path ∧
    (process_transcriptS w a).2.config.user_context = a.config.user_context ∧
    (process_transcriptS w a).2.config.model = a.config.model ∧
    (process_transcriptS w a).2.config.max_tokens = a.config.max_tokens ∧
    (process_transcriptS w a).2.config.temperature = a.config.temperature := by
  have h2 : (process_transcriptS w a).2 = a := by
    cases hx : extract_text_from_file w a.config with
    | error e =>
      simp [process_transcriptS, extract_text_from_fileS, analyze_transcriptS, hx]
    | ok t =>
      cases ha : analyze_transcript w a.config t with
      | error e =>
        simp [process_transcriptS, extract_text_from_fileS, analyze_transcriptS, hx, ha]
      | ok r =>
        simp [process_transcriptS, extract_text_from_fileS, analyze_transcriptS, hx, ha]
  exact ⟨h2, by rw [h2], by rw [h2], by rw [h2], by rw [h2], by rw [h2]⟩

/-- Claim C10: an extraction failure with original message m makes the
pipeline return exactly the doubly wrapped string
"Error processing transcript: OCR processing failed: m". -/
theorem extract_failure_double_wrapped (w : World) (config : Config) (m : String)
    (h : extract_text_body w config = .error m) :
    process_transcript w config =
      "Error processing transcript: " ++ ("OCR processing failed: " ++ m) := by
  simp [process_transcript, extract_text_from_file, h]

/-- Witness for C10 on a world whose file open raises "no such file". -/
theorem extract_failure_double_wrapped_witness :
    extract_text_body openFailWorld cfg0 = .error "no such file" ∧
    process_transcript openFailWorld cfg0 =
      "Error processing transcript: OCR processing failed: no such file" := by
  refine ⟨rfl, ?_⟩
  have h := extract_failure_double_wrapped openFailWorld cfg0 "no such file" rfl
  exact h.trans (by decide)

end AscentCast
